import Mathlib

/-!
Shallow embedding of the jjmaturino/bootstrapper core: the platform-starter
registry and dispatch protocol.

Sources embedded here:
- package platform, file with `Type`/`ServiceType` constants (src/platform/type.go,
  src/unnamed/part_006 first section): the platform and service kind strings.
- package platform, vm.go (src/unnamed/part_006 second section): `VMServiceStarter`
  with `Start`, `startHTTPService`, `NewVMServiceStarter`.
- package starter (src/unnamed/part_002): `ServiceLauncher` with `NewServiceLauncher`,
  `Start`, `GetPlatformStarter`, `RegisterPlatform`.
- package launcher (src/unnamed/part_001): the package-global registry variant
  (`Start`, `GetPlatformStarter`, `RegisterPlatform`, `init`), modelled with the
  package-level map passed as explicit state.

Effects are made explicit: each operation returns, besides its Go return values,
the ordered list of observable events (log emissions and collaborator method
invocations) it performed. Go `error` values are modelled by `GoError`, which
keeps the message structure that `errors.New` / `fmt.Errorf` with `%w` build.
-/

/-- Go `platform.Type` (an opaque string naming a runtime platform). -/
abbrev PlatformType := String

/-- Go `platform.ServiceType` (an opaque string naming a service kind). -/
abbrev ServiceType := String

/-- Go constant `platform.VM = "virtual_machine"`. -/
def VM : PlatformType := "virtual_machine"

/-- Go constant `platform.HTTPServiceType = "http"`. -/
def HTTPServiceType : ServiceType := "http"

/-- A `context.Context` carries no data relevant to the embedded control flow. -/
abbrev Ctx := Unit

/-- A `*zap.Logger` value; only identity matters to the embedded code. -/
structure Logger where
  id : Nat
deriving DecidableEq

/-- Go `error` values as the core builds them: `errors.New`/`fmt.Errorf` without
`%w` give `new`, and `fmt.Errorf "prefix: %w"` gives `wrap`. -/
inductive GoError where
  | new (msg : String)
  | wrap (pre : String) (cause : GoError)
deriving DecidableEq

/-- The `Error()` string of a `GoError`, following `fmt.Errorf` semantics:
a wrapped error renders as `prefix ++ ": " ++ cause.Error()`. -/
def GoError.message : GoError → String
  | .new m => m
  | .wrap p c => p ++ ": " ++ c.message

/-- Observable events: structured-log emissions (`zap` levels plus the stdlib
`log.Printf`) and invocations of collaborator methods. -/
inductive Event where
  | logInfo (msg : String)
  | logWarn (msg : String)
  | logError (msg : String)
  | logStd (msg : String)
  | initializeCalled
  | configureRoutesCalled
  | engineRunCalled
  | signalHandlingSetup
deriving DecidableEq, BEq

/-- Go `platform.Engine`: the only method the core calls is `Run(addr ...string)`.
`Run` is the outcome of the blocking run call. (`Handle` is never invoked by the
core and is omitted.) -/
structure Engine where
  Run : List String → Option GoError

/-- The HTTP capability (`platform.HTTPService` beyond `platform.Service`):
`ConfigureRoutes(ctx, engine) error`, modelled by its returned error. -/
structure HTTPImpl where
  configureRoutes : Ctx → Engine → Option GoError

/-- One element of the untyped dependency bag `deps ...interface{}`: the runtime
type assertion `dep.(Engine)` succeeds exactly on the `engine` constructor. -/
inductive Dep where
  | engine (e : Engine)
  | other (tag : String)

/-- Whether a dependency-bag element satisfies the Engine capability. -/
def Dep.isEngineDep : Dep → Bool
  | .engine _ => true
  | .other _ => false

/-- Go `platform.Service`. `type` is the `Type()` method; `initializeFn` is the
`Initialize(ctx, deps...)` method, modelled by the error it returns; `http` is
`none` exactly when the runtime assertion `service.(HTTPService)` fails. -/
structure Service where
  type : ServiceType
  initializeFn : Ctx → List Dep → Option GoError
  http : Option HTTPImpl

/-- The engine-location loop of `startHTTPService`: scan `deps` in order and
take the first element whose assertion `dep.(Engine)` succeeds. -/
def findEngine : List Dep → Option Engine
  | [] => none
  | .engine e :: _ => some e
  | .other _ :: rest => findEngine rest

/-- Go `platform.VMServiceStarter`: stateless apart from its logger handle.
`logger = none` models a nil `*zap.Logger`. -/
structure VMServiceStarter where
  logger : Option Logger

/-- `VMServiceStarter.startHTTPService` (vm.go): locate the first Engine in
`deps` (fail with the engine-not-found error if none), call
`service.ConfigureRoutes(ctx, engine)` (on failure log and wrap as
route-configuration failure), set up signal handling, then return the result
of the blocking `engine.Run()` call. The second component is the ordered
event trace. -/
def VMServiceStarter.startHTTPService (v : VMServiceStarter) (ctx : Ctx)
    (service : HTTPImpl) (deps : List Dep) : Option GoError × List Event :=
  let tr0 := [Event.logInfo "Setting up HTTP service"]
  match findEngine deps with
  | none =>
      (some (.new "engine not found in dependencies for HTTP service"), tr0)
  | some engine =>
      let tr1 := tr0 ++ [Event.logInfo "Configuring HTTP routes",
                         Event.configureRoutesCalled]
      match service.configureRoutes ctx engine with
      | some err =>
          (some (.wrap "failed to configure routes" err),
           tr1 ++ [Event.logError "Failed to configure routes"])
      | none =>
          (engine.Run [],
           tr1 ++ [Event.signalHandlingSetup,
                   Event.logInfo "Starting HTTP server",
                   Event.engineRunCalled])

/-- `VMServiceStarter.Start` (vm.go): log, call `service.Initialize` (on
failure log and wrap as initialization failure and stop), then switch on
`service.Type()`: for `HTTPServiceType` assert the `HTTPService` interface
(fail with the mismatch error if the assertion fails) and delegate to
`startHTTPService`; for any other kind fail with the unsupported-kind error. -/
def VMServiceStarter.Start (v : VMServiceStarter) (ctx : Ctx)
    (service : Service) (deps : List Dep) : Option GoError × List Event :=
  let tr0 := [Event.logInfo ("Starting service on VM platform " ++ service.type),
              Event.initializeCalled]
  match service.initializeFn ctx deps with
  | some err =>
      (some (.wrap "failed to initialize service" err),
       tr0 ++ [Event.logError "Failed to initialize service"])
  | none =>
      if service.type = HTTPServiceType then
        match service.http with
        | none =>
            (some (.new "service claims to be HTTP but does not implement HTTPService interface"),
             tr0)
        | some httpService =>
            let r := v.startHTTPService ctx httpService deps
            (r.1, tr0 ++ r.2)
      else
        (some (.new ("unsupported service type for VM platform: " ++ service.type)),
         tr0)

/-- `NewVMServiceStarter(logger)` (vm.go): when the supplied logger is nil,
attempt `zap.NewProduction()` (its outcome is the `newProduction` parameter);
on failure, emit the `log.Printf` line and keep the nil logger — the
constructor still returns a starter. -/
def NewVMServiceStarter (logger : Option Logger)
    (newProduction : Except String Logger) : VMServiceStarter × List Event :=
  match logger with
  | some lg => ({ logger := some lg }, [])
  | none =>
      match newProduction with
      | .ok lg => ({ logger := some lg }, [])
      | .error e =>
          ({ logger := none }, [Event.logStd ("Failed to create logger: " ++ e)])

/-- Go `platform.ServiceStarter`, the interface the registry stores: its one
method `Start(ctx, service, deps...)`, with the event trace made explicit. -/
structure ServiceStarter where
  StartService : Ctx → Service → List Dep → Option GoError × List Event

/-- View a `VMServiceStarter` through the `ServiceStarter` interface
(`var _ ServiceStarter = (*VMServiceStarter)(nil)` in vm.go). -/
def VMServiceStarter.asStarter (v : VMServiceStarter) : ServiceStarter :=
  { StartService := fun ctx service deps => v.Start ctx service deps }

/-- The registry map `map[platform.Type]platform.ServiceStarter`, as an
association list without duplicate keys (insertion overwrites in place). -/
def Registry := List (PlatformType × ServiceStarter)

/-- Go map read `registry[platformType]`. -/
def Registry.lookup (r : Registry) (p : PlatformType) : Option ServiceStarter :=
  match r with
  | [] => none
  | (q, st) :: rest => if q = p then some st else Registry.lookup rest p

/-- Go map write `registry[platformType] = starter`: overwrite the existing
entry in place, or append a fresh one. -/
def Registry.insert (r : Registry) (p : PlatformType) (st : ServiceStarter) : Registry :=
  match r with
  | [] => [(p, st)]
  | (q, st0) :: rest =>
      if q = p then (p, st) :: rest else (q, st0) :: Registry.insert rest p st

/-- Go `starter.ServiceLauncher` (src/unnamed/part_002): the registry map plus
the logger handle. The `sync.RWMutex` serializes access and carries no data. -/
structure ServiceLauncher where
  serviceStarterRegistry : Registry
  logger : Option Logger

/-- `ServiceLauncher.RegisterPlatform`: under the exclusive lock, warn if an
entry already exists, then overwrite and log the registration. -/
def ServiceLauncher.RegisterPlatform (l : ServiceLauncher) (ctx : Ctx)
    (platformType : PlatformType) (starter : ServiceStarter) :
    ServiceLauncher × List Event :=
  let warn :=
    if (l.serviceStarterRegistry.lookup platformType).isSome then
      [Event.logWarn "Overriding existing platform starter"]
    else []
  ({ l with serviceStarterRegistry :=
        l.serviceStarterRegistry.insert platformType starter },
   warn ++ [Event.logInfo "Registered platform starter"])

/-- `ServiceLauncher.Start`: look the starter up under the shared lock; if
absent return the unsupported-platform error (no logging, nothing invoked);
otherwise log the start and delegate, returning the starter result unchanged. -/
def ServiceLauncher.Start (l : ServiceLauncher) (ctx : Ctx) (service : Service)
    (platformType : PlatformType) (deps : List Dep) :
    Option GoError × List Event :=
  match l.serviceStarterRegistry.lookup platformType with
  | none => (some (.new ("unsupported platform type: " ++ platformType)), [])
  | some starter =>
      let r := starter.StartService ctx service deps
      (r.1, Event.logInfo "Starting service" :: r.2)

/-- `ServiceLauncher.GetPlatformStarter`: shared-lock read; error when absent. -/
def ServiceLauncher.GetPlatformStarter (l : ServiceLauncher)
    (platformType : PlatformType) : Except GoError ServiceStarter :=
  match l.serviceStarterRegistry.lookup platformType with
  | none => .error (.new ("no starter registered for platform: " ++ platformType))
  | some starter => .ok starter

/-- `NewServiceLauncher(ctx, logger)`: fresh empty registry, then register the
built-in VM starter `platform.NewVMServiceStarter(logger)` under `platform.VM`.
`newProduction` is the outcome `zap.NewProduction()` would have inside
`NewVMServiceStarter` when `logger` is nil. -/
def NewServiceLauncher (ctx : Ctx) (logger : Option Logger)
    (newProduction : Except String Logger) : ServiceLauncher × List Event :=
  let l0 : ServiceLauncher := { serviceStarterRegistry := [], logger := logger }
  let vm := NewVMServiceStarter logger newProduction
  let r := l0.RegisterPlatform ctx VM vm.1.asStarter
  (r.1, vm.2 ++ r.2)

namespace Launcher

/-- Package `launcher` (src/unnamed/part_001), `RegisterPlatform`: same body as
the instance method, acting on the package-level map passed as explicit state. -/
def RegisterPlatform (reg : Registry) (platformType : PlatformType)
    (starter : ServiceStarter) : Registry × List Event :=
  let warn :=
    if (reg.lookup platformType).isSome then
      [Event.logWarn "Overriding existing platform starter"]
    else []
  (reg.insert platformType starter,
   warn ++ [Event.logInfo "Registered platform starter"])

/-- Package `launcher`, `GetPlatformStarter`: shared-lock read of the
package-level map; error when absent. -/
def GetPlatformStarter (reg : Registry) (platformType : PlatformType) :
    Except GoError ServiceStarter :=
  match reg.lookup platformType with
  | none => .error (.new ("no starter registered for platform: " ++ platformType))
  | some starter => .ok starter

/-- Package `launcher`, `Start`: lookup in the package-level map, error when
absent, otherwise log and delegate via `starter.StartService`. -/
def Start (reg : Registry) (ctx : Ctx) (service : Service)
    (platformType : PlatformType) (deps : List Dep) :
    Option GoError × List Event :=
  match reg.lookup platformType with
  | none => (some (.new ("unsupported platform type: " ++ platformType)), [])
  | some starter =>
      let r := starter.StartService ctx service deps
      (r.1, Event.logInfo "Starting service" :: r.2)

/-- Package `launcher`, `init`: build the package logger with
`zap.NewProduction()`; on failure PANIC (the process aborts — modelled as
`none`); on success register the built-in VM starter in the fresh package map. -/
def initPackage (newProduction : Except String Logger) :
    Option (Registry × List Event) :=
  match newProduction with
  | .error _ => none
  | .ok lg =>
      let vm := NewVMServiceStarter (some lg) (.ok lg)
      let r := RegisterPlatform [] VM vm.1.asStarter
      some (r.1, vm.2 ++ r.2)

end Launcher

/-- One registry-facing call on a `ServiceLauncher`, for stating frame
properties over interleaved call sequences. -/
inductive LauncherOp where
  | registerOp (p : PlatformType) (st : ServiceStarter)
  | lookupOp (p : PlatformType)
  | startOp (service : Service) (p : PlatformType) (deps : List Dep)

/-- Whether an operation is a `RegisterPlatform` call. -/
def LauncherOp.isRegister : LauncherOp → Bool
  | .registerOp _ _ => true
  | .lookupOp _ => false
  | .startOp _ _ _ => false

/-- The launcher state after one call. `RegisterPlatform` returns the updated
launcher; `GetPlatformStarter` and `Start` only read the registry (their
embeddings return results, never a new registry), so the state is passed
through unchanged. -/
def applyOp (ctx : Ctx) (l : ServiceLauncher) : LauncherOp → ServiceLauncher
  | .registerOp p st => (l.RegisterPlatform ctx p st).1
  | .lookupOp p =>
      let _ := l.GetPlatformStarter p
      l
  | .startOp service p deps =>
      let _ := l.Start ctx service p deps
      l

/-- The launcher state after a sequence of calls. -/
def applyOps (ctx : Ctx) (l : ServiceLauncher) : List LauncherOp → ServiceLauncher
  | [] => l
  | op :: rest => applyOps ctx (applyOp ctx l op) rest

/-- The UnknownPlatform error kind of the error taxonomy: the two
lookup-failure error shapes the registry code produces. -/
def GoError.isUnknownPlatform (e : GoError) : Prop :=
  ∃ p, e = .new ("unsupported platform type: " ++ p)
     ∨ e = .new ("no starter registered for platform: " ++ p)

/-- A sample engine whose blocking run call returns nil. -/
def engineOk : Engine := { Run := fun _ => none }

/-- A sample HTTP capability whose route configuration succeeds. -/
def httpOk : HTTPImpl := { configureRoutes := fun _ _ => none }

/-- A sample HTTP-kind service whose Initialize and ConfigureRoutes succeed. -/
def serviceOk : Service :=
  { type := HTTPServiceType, initializeFn := fun _ _ => none, http := some httpOk }

/-- A sample HTTP-kind service whose Initialize fails. -/
def serviceInitFail : Service :=
  { type := HTTPServiceType,
    initializeFn := fun _ _ => some (.new "db unavailable"),
    http := some httpOk }

/-- A sample service declaring the HTTP kind without the HTTP capability. -/
def serviceNoCapability : Service :=
  { type := HTTPServiceType, initializeFn := fun _ _ => none, http := none }

/-- A sample service of an unhandled kind. -/
def serviceQueueKind : Service :=
  { type := "queue", initializeFn := fun _ _ => none, http := none }

/-- A launcher with an empty registry, for witnesses. -/
def emptyLauncher : ServiceLauncher := { serviceStarterRegistry := [], logger := none }

/-- A VM starter with a nil logger, for witnesses. -/
def vmStarter0 : VMServiceStarter := { logger := none }

/-- A sample starter stored in the registry by witnesses. -/
def starterA : ServiceStarter :=
  { StartService := fun _ _ _ => (none, []) }

/-- A second sample starter, overriding `starterA` in witnesses. -/
def starterB : ServiceStarter :=
  { StartService := fun _ _ _ => (some (.new "B"), []) }

/-- The launcher built by `NewServiceLauncher` with a concrete logger. -/
def freshLauncher : ServiceLauncher :=
  (NewServiceLauncher () (some { id := 0 }) (.ok { id := 0 })).1

/-- The VM starter that `freshLauncher` registered at construction. -/
def vmOfFresh : VMServiceStarter :=
  (NewVMServiceStarter (some { id := 0 }) (.ok { id := 0 })).1

theorem Registry.lookup_insert_self (r : Registry) (p : PlatformType)
    (st : ServiceStarter) : (r.insert p st).lookup p = some st := by
  induction r with
  | nil => simp [Registry.insert, Registry.lookup]
  | cons hd tl ih =>
      obtain ⟨q, st0⟩ := hd
      by_cases hq : q = p
      · subst hq
        simp [Registry.insert, Registry.lookup]
      · simp [Registry.insert, Registry.lookup, hq, ih]

theorem findEngine_append_first (pre : List Dep) (e : Engine) (rest : List Dep)
    (hpre : ∀ d ∈ pre, d.isEngineDep = false) :
    findEngine (pre ++ Dep.engine e :: rest) = some e := by
  induction pre with
  | nil => rfl
  | cons d tl ih =>
      cases d with
      | engine e0 =>
          have := hpre (Dep.engine e0) (by simp)
          simp [Dep.isEngineDep] at this
      | other tag =>
          have htl : ∀ d ∈ tl, d.isEngineDep = false := by
            intro d hd
            exact hpre d (by simp [hd])
          simpa [findEngine] using ih htl

/-- Claim C2: for a platformID with no registered starter, GetPlatformStarter
fails with an UnknownPlatform-kind error, and Start fails with an error of the
same kind while performing no events at all (no starter or service method is
invoked and nothing is logged). -/
theorem C2_unknown_platform (ctx : Ctx) (l : ServiceLauncher)
    (P : PlatformType) (service : Service) (deps : List Dep)
    (habsent : l.serviceStarterRegistry.lookup P = none) :
    l.GetPlatformStarter P
      = .error (.new ("no starter registered for platform: " ++ P))
    ∧ (GoError.new ("no starter registered for platform: " ++ P)).isUnknownPlatform
    ∧ l.Start ctx service P deps
      = (some (.new ("unsupported platform type: " ++ P)), [])
    ∧ (GoError.new ("unsupported platform type: " ++ P)).isUnknownPlatform := by
  refine ⟨?_, ⟨P, Or.inr rfl⟩, ?_, ⟨P, Or.inl rfl⟩⟩
  · simp [ServiceLauncher.GetPlatformStarter, habsent]
  · simp [ServiceLauncher.Start, habsent]

/-- Witness for C2 at a concrete never-registered platform. -/
theorem C2_unknown_platform_witness :
    emptyLauncher.GetPlatformStarter "container"
      = .error (.new ("no starter registered for platform: " ++ "container"))
    ∧ emptyLauncher.Start () serviceOk "container" []
      = (some (.new ("unsupported platform type: " ++ "container")), []) := by
  have h := C2_unknown_platform () emptyLauncher "container" serviceOk [] rfl
  exact ⟨h.1, h.2.2.1⟩

/-- Claim C3: registering A then B under the same platformID makes Lookup
return B (the overwrite always succeeds); the second registration emits the
override warning while a first-time registration does not. Stated for both
the instance launcher and the package-level launcher registry. -/
theorem C3_register_override (ctx : Ctx) (l : ServiceLauncher) (reg : Registry)
    (P : PlatformType) (A B : ServiceStarter) :
    ((l.RegisterPlatform ctx P A).1.RegisterPlatform ctx P B).1.GetPlatformStarter P
        = .ok B
    ∧ Event.logWarn "Overriding existing platform starter"
        ∈ ((l.RegisterPlatform ctx P A).1.RegisterPlatform ctx P B).2
    ∧ (l.serviceStarterRegistry.lookup P = none →
        Event.logWarn "Overriding existing platform starter"
          ∉ (l.RegisterPlatform ctx P A).2)
    ∧ (Launcher.RegisterPlatform (Launcher.RegisterPlatform reg P A).1 P B).1.lookup P
        = some B
    ∧ Event.logWarn "Overriding existing platform starter"
        ∈ (Launcher.RegisterPlatform (Launcher.RegisterPlatform reg P A).1 P B).2
    ∧ (reg.lookup P = none →
        Event.logWarn "Overriding existing platform starter"
          ∉ (Launcher.RegisterPlatform reg P A).2) := by
  refine ⟨?_, ?_, ?_, ?_, ?_, ?_⟩
  · simp [ServiceLauncher.RegisterPlatform, ServiceLauncher.GetPlatformStarter,
          Registry.lookup_insert_self]
  · simp [ServiceLauncher.RegisterPlatform, Registry.lookup_insert_self]
  · intro habsent
    simp [ServiceLauncher.RegisterPlatform, habsent]
  · simp [Launcher.RegisterPlatform, Registry.lookup_insert_self]
  · simp [Launcher.RegisterPlatform, Registry.lookup_insert_self]
  · intro habsent
    simp [Launcher.RegisterPlatform, habsent]

/-- Witness for C3 at a concrete platformID and starters, with a fresh
registry for the first-time-registration conjuncts. -/
theorem C3_register_override_witness :
    ((emptyLauncher.RegisterPlatform () "p" starterA).1.RegisterPlatform () "p"
        starterB).1.GetPlatformStarter "p" = .ok starterB
    ∧ Event.logWarn "Overriding existing platform starter"
        ∉ (emptyLauncher.RegisterPlatform () "p" starterA).2
    ∧ Event.logWarn "Overriding existing platform starter"
        ∉ (Launcher.RegisterPlatform [] "p" starterA).2 := by
  have h := C3_register_override () emptyLauncher [] "p" starterA starterB
  exact ⟨h.1, h.2.2.1 rfl, h.2.2.2.2.2 rfl⟩

/-- Claim C9 (implicit): a launcher freshly built by NewServiceLauncher
already has the VM starter registered under the virtual-machine platform
identifier: GetPlatformStarter succeeds on it, and Start on that platform
delegates to the VM starter rather than failing, for every context, logger
and fallback-construction outcome. -/
theorem C9_constructor_preregisters_vm (ctx : Ctx) (logger : Option Logger)
    (newProduction : Except String Logger) :
    (NewServiceLauncher ctx logger newProduction).1.serviceStarterRegistry.lookup VM
      = some (NewVMServiceStarter logger newProduction).1.asStarter
    ∧ (NewServiceLauncher ctx logger newProduction).1.GetPlatformStarter VM
      = .ok (NewVMServiceStarter logger newProduction).1.asStarter
    ∧ ∀ (service : Service) (deps : List Dep),
        (NewServiceLauncher ctx logger newProduction).1.Start ctx service VM deps
          = (((NewVMServiceStarter logger newProduction).1.Start ctx service deps).1,
             Event.logInfo "Starting service"
               :: ((NewVMServiceStarter logger newProduction).1.Start ctx service deps).2) := by
  have hreg : (NewServiceLauncher ctx logger newProduction).1.serviceStarterRegistry.lookup VM
      = some (NewVMServiceStarter logger newProduction).1.asStarter := by
    simp [NewServiceLauncher, ServiceLauncher.RegisterPlatform,
          Registry.lookup_insert_self]
  refine ⟨hreg, ?_, ?_⟩
  · simp [ServiceLauncher.GetPlatformStarter, hreg]
  · intro service deps
    simp [ServiceLauncher.Start, hreg, VMServiceStarter.asStarter]

/-- Claim C10 (implicit): over any sequence of registry-facing calls, the
registry map is exactly the one determined by the RegisterPlatform calls
alone — GetPlatformStarter and the lookup step inside Start never mutate it,
and a failing lookup leaves the launcher unchanged. -/
theorem C10_lookups_never_mutate (ctx : Ctx) (l : ServiceLauncher)
    (ops : List LauncherOp) :
    (applyOps ctx l ops).serviceStarterRegistry
      = (applyOps ctx l (ops.filter LauncherOp.isRegister)).serviceStarterRegistry
    ∧ (∀ p, applyOp ctx l (.lookupOp p) = l)
    ∧ (∀ service p deps, applyOp ctx l (.startOp service p deps) = l) := by
  refine ⟨?_, fun p => rfl, fun service p deps => rfl⟩
  induction ops generalizing l with
  | nil => rfl
  | cons op rest ih =>
      cases op with
      | registerOp p st =>
          simp [applyOps, List.filter, LauncherOp.isRegister, applyOp, ih]
      | lookupOp p =>
          simp [applyOps, List.filter, LauncherOp.isRegister, applyOp, ih]
      | startOp service p deps =>
          simp [applyOps, List.filter, LauncherOp.isRegister, applyOp, ih]

/-- Claim C4: whenever Service.Initialize fails, the VM starter returns the
initialization-failure error wrapping that cause, and neither ConfigureRoutes
nor Engine.Run is ever invoked. -/
theorem C4_initialization_gates (ctx : Ctx) (v : VMServiceStarter)
    (service : Service) (deps : List Dep) (err : GoError)
    (hinit : service.initializeFn ctx deps = some err) :
    (v.Start ctx service deps).1
        = some (.wrap "failed to initialize service" err)
    ∧ Event.configureRoutesCalled ∉ (v.Start ctx service deps).2
    ∧ Event.engineRunCalled ∉ (v.Start ctx service deps).2 := by
  refine ⟨?_, ?_, ?_⟩ <;> simp [VMServiceStarter.Start, hinit]

/-- Witness for C4 at a concrete service whose Initialize fails. -/
theorem C4_initialization_gates_witness :
    (vmStarter0.Start () serviceInitFail []).1
        = some (.wrap "failed to initialize service" (.new "db unavailable"))
    ∧ Event.configureRoutesCalled ∉ (vmStarter0.Start () serviceInitFail []).2
    ∧ Event.engineRunCalled ∉ (vmStarter0.Start () serviceInitFail []).2 :=
  C4_initialization_gates () vmStarter0 serviceInitFail [] (.new "db unavailable") rfl

/-- Claim C5: after successful initialization, a service declaring the HTTP
kind without implementing the HTTP capability fails with the kind-mismatch
error and Engine.Run is never invoked; a service of any other kind fails with
the unsupported-kind error naming that kind; and the mismatch error is
distinct from every unsupported-kind error. -/
theorem C5_capability_mismatch (ctx : Ctx) (v : VMServiceStarter)
    (service : Service) (deps : List Dep)
    (hinit : service.initializeFn ctx deps = none) :
    (service.type = HTTPServiceType → service.http = none →
        (v.Start ctx service deps).1
          = some (.new "service claims to be HTTP but does not implement HTTPService interface")
        ∧ Event.engineRunCalled ∉ (v.Start ctx service deps).2)
    ∧ (service.type ≠ HTTPServiceType →
        (v.Start ctx service deps).1
          = some (.new ("unsupported service type for VM platform: " ++ service.type))
        ∧ Event.engineRunCalled ∉ (v.Start ctx service deps).2)
    ∧ (∀ kind : ServiceType,
        GoError.new "service claims to be HTTP but does not implement HTTPService interface"
          ≠ GoError.new ("unsupported service type for VM platform: " ++ kind)) := by
  refine ⟨?_, ?_, ?_⟩
  · intro htype hhttp
    constructor <;> simp [VMServiceStarter.Start, hinit, htype, hhttp]
  · intro htype
    constructor <;> simp [VMServiceStarter.Start, hinit, htype]
  · intro kind h
    simp only [GoError.new.injEq] at h
    have h3 := congrArg (fun s => s.data.head?) h
    simp only [String.data_append] at h3
    have h4 : (some 's' : Option Char) = some 'u' := h3
    exact absurd h4 (by decide)

/-- Witness for C5 at a concrete capability-less HTTP service and a concrete
queue-kind service. -/
theorem C5_capability_mismatch_witness :
    (vmStarter0.Start () serviceNoCapability []).1
        = some (.new "service claims to be HTTP but does not implement HTTPService interface")
    ∧ Event.engineRunCalled ∉ (vmStarter0.Start () serviceNoCapability []).2
    ∧ (vmStarter0.Start () serviceQueueKind []).1
        = some (.new ("unsupported service type for VM platform: " ++ "queue"))
    ∧ Event.engineRunCalled ∉ (vmStarter0.Start () serviceQueueKind []).2 := by
  have h1 := (C5_capability_mismatch () vmStarter0 serviceNoCapability [] rfl).1 rfl rfl
  have h2 := (C5_capability_mismatch () vmStarter0 serviceQueueKind [] rfl).2.1 (by decide)
  exact ⟨h1.1, h1.2, h2.1, h2.2⟩

/-- Claim C6: on the HTTP path the VM starter uses the first element of the
deps bag satisfying the Engine capability (both for route configuration and
for the run call); with no Engine-capable element, it fails before
ConfigureRoutes is attempted with an error whose message contains the text
"engine not found", and ConfigureRoutes is never called. -/
theorem C6_engine_location (ctx : Ctx) (v : VMServiceStarter)
    (service : HTTPImpl) (deps : List Dep) :
    (∀ (pre : List Dep) (e : Engine) (rest : List Dep),
        deps = pre ++ Dep.engine e :: rest →
        (∀ d ∈ pre, d.isEngineDep = false) →
        findEngine deps = some e
        ∧ (service.configureRoutes ctx e = none →
            (v.startHTTPService ctx service deps).1 = e.Run []))
    ∧ (findEngine deps = none →
        (v.startHTTPService ctx service deps).1
          = some (.new "engine not found in dependencies for HTTP service")
        ∧ ("engine not found").data.isPrefixOf
            (GoError.new "engine not found in dependencies for HTTP service").message.data = true
        ∧ Event.configureRoutesCalled ∉ (v.startHTTPService ctx service deps).2) := by
  constructor
  · intro pre e rest hdeps hpre
    have hfe : findEngine deps = some e := by
      rw [hdeps]
      exact findEngine_append_first pre e rest hpre
    refine ⟨hfe, ?_⟩
    intro hconf
    simp [VMServiceStarter.startHTTPService, hfe, hconf]
  · intro hnone
    refine ⟨?_, by decide, ?_⟩ <;>
      simp [VMServiceStarter.startHTTPService, hnone]

/-- Witness for C6: a bag whose engine sits behind a non-engine dependency,
and the empty bag. -/
theorem C6_engine_location_witness :
    findEngine [Dep.other "logger", Dep.engine engineOk] = some engineOk
    ∧ (vmStarter0.startHTTPService () httpOk [Dep.other "logger", Dep.engine engineOk]).1
        = engineOk.Run []
    ∧ (vmStarter0.startHTTPService () httpOk []).1
        = some (.new "engine not found in dependencies for HTTP service")
    ∧ Event.configureRoutesCalled ∉ (vmStarter0.startHTTPService () httpOk []).2 := by
  have h1 := (C6_engine_location () vmStarter0 httpOk
      [Dep.other "logger", Dep.engine engineOk]).1 [Dep.other "logger"] engineOk []
      rfl (by decide)
  have h2 := (C6_engine_location () vmStarter0 httpOk []).2 rfl
  exact ⟨h1.1, h1.2 rfl, h2.1, h2.2.2⟩

/-- Claim C1: with the VM starter registered under the virtual-machine
platform, starting an HTTP-kind service whose Initialize and ConfigureRoutes
succeed, with a deps bag whose engine runs without error, returns no error;
ConfigureRoutes is called exactly once and before Engine.Run; and the
launcher returns the starter result unchanged, adding only the informational
start log. -/
theorem C1_happy_path (ctx : Ctx) (l : ServiceLauncher) (v : VMServiceStarter)
    (service : Service) (hi : HTTPImpl) (deps : List Dep) (e : Engine)
    (hreg : l.serviceStarterRegistry.lookup VM = some v.asStarter)
    (htype : service.type = HTTPServiceType)
    (hhttp : service.http = some hi)
    (hinit : service.initializeFn ctx deps = none)
    (heng : findEngine deps = some e)
    (hconf : hi.configureRoutes ctx e = none)
    (hrun : e.Run [] = none) :
    (l.Start ctx service VM deps).1 = none
    ∧ l.Start ctx service VM deps
        = ((v.Start ctx service deps).1,
           Event.logInfo "Starting service" :: (v.Start ctx service deps).2)
    ∧ (l.Start ctx service VM deps).2.count Event.configureRoutesCalled = 1
    ∧ (∃ t1 t2, (l.Start ctx service VM deps).2
          = t1 ++ Event.configureRoutesCalled :: t2
        ∧ Event.engineRunCalled ∈ t2
        ∧ Event.engineRunCalled ∉ t1) := by
  have hv : v.Start ctx service deps =
      (none,
       [Event.logInfo ("Starting service on VM platform " ++ HTTPServiceType),
        Event.initializeCalled,
        Event.logInfo "Setting up HTTP service",
        Event.logInfo "Configuring HTTP routes",
        Event.configureRoutesCalled,
        Event.signalHandlingSetup,
        Event.logInfo "Starting HTTP server",
        Event.engineRunCalled]) := by
    simp [VMServiceStarter.Start, VMServiceStarter.startHTTPService,
          hinit, htype, hhttp, heng, hconf, hrun]
  have hl : l.Start ctx service VM deps =
      ((v.Start ctx service deps).1,
       Event.logInfo "Starting service" :: (v.Start ctx service deps).2) := by
    simp [ServiceLauncher.Start, hreg, VMServiceStarter.asStarter]
  refine ⟨?_, hl, ?_, ?_⟩
  · rw [hl, hv]
  · rw [hl, hv]
    decide
  · refine ⟨[Event.logInfo "Starting service",
             Event.logInfo ("Starting service on VM platform " ++ HTTPServiceType),
             Event.initializeCalled,
             Event.logInfo "Setting up HTTP service",
             Event.logInfo "Configuring HTTP routes"],
            [Event.signalHandlingSetup,
             Event.logInfo "Starting HTTP server",
             Event.engineRunCalled], ?_, by simp, by simp⟩
    rw [hl, hv]
    rfl

/-- Witness for C1 on the freshly constructed launcher, a concrete HTTP
service and a one-engine deps bag. -/
theorem C1_happy_path_witness :
    (freshLauncher.Start () serviceOk VM [Dep.engine engineOk]).1 = none
    ∧ (freshLauncher.Start () serviceOk VM [Dep.engine engineOk]).2.count
        Event.configureRoutesCalled = 1 := by
  have h := C1_happy_path () freshLauncher vmOfFresh serviceOk httpOk
      [Dep.engine engineOk] engineOk rfl rfl rfl rfl rfl rfl rfl
  exact ⟨h.1, h.2.2.1⟩

/-- Claim C8 counterexample: not every core code path that constructs a
logger in the absence of a supplied one recovers locally — the launcher
package init (src/unnamed/part_001) panics, aborting the process (modelled
as `none`), when its logger construction fails. -/
theorem C8_counterexample :
    Launcher.initPackage (.error "zap construction failure") = none := rfl

/-- Claim C8 (amended): in `NewVMServiceStarter` a fallback-logger
construction failure is recovered locally — the constructor still returns a
starter, degrading to a nil logger with only a best-effort stdlib log line —
whereas the launcher package init panics (aborts) on the same failure. -/
theorem C8_amended_fallback_recovery (e : String) :
    NewVMServiceStarter none (.error e)
      = ({ logger := none }, [Event.logStd ("Failed to create logger: " ++ e)])
    ∧ (∀ (logger : Logger) (newProduction : Except String Logger),
        NewVMServiceStarter (some logger) newProduction
          = ({ logger := some logger }, []))
    ∧ Launcher.initPackage (.error e) = none := by
  exact ⟨rfl, fun logger newProduction => rfl, rfl⟩
